import Mathlib

/-!
Verification of the geomdl base module (geomdl/base.py): the identity and
copy protocol of GeomdlObject, the GeomdlBase geometry state (dimension,
geometry type, opt store, cache), the GeomdlEvaluator construction, and the
capability-marker validation used by the opt setter.

The embedding models Python values with an explicit heap: immutable
immediates (None, int, str) are immediate values, and mutable containers
(dict, list) live at heap addresses.  Instances of the geomdl classes are
modelled as a concrete class tag plus an association list of set slots,
mirroring CPython slot storage: reading an unset slot is an AttributeError.
-/

set_option autoImplicit false

namespace Geomdl

/-- Heap addresses for mutable Python objects. -/
abbrev Addr := Nat

/-- A Python value: None, an integer, a string, or a reference to a mutable
container stored on the heap. -/
inductive PyVal where
  | none
  | int (n : Int)
  | str (s : String)
  | ref (a : Addr)
deriving DecidableEq, Repr

/-- A mutable heap object: a dict (GeomdlDict, insertion ordered) or a list. -/
inductive HObj where
  | dict (entries : List (PyVal × PyVal))
  | list (elems : List PyVal)
deriving DecidableEq, Repr

/-- The heap: an association list from addresses to objects together with the
next fresh address.  Later bindings shadow earlier ones. -/
structure Heap where
  objs : List (Addr × HObj)
  next : Addr
deriving DecidableEq, Repr

/-- Association-list lookup used for the heap. -/
def assocFind : List (Addr × HObj) → Addr → Option HObj
  | [], _ => Option.none
  | (a, o) :: rest, b => if a = b then some o else assocFind rest b

/-- Look up the object stored at an address. -/
def Heap.lookup (h : Heap) (a : Addr) : Option HObj :=
  assocFind h.objs a

/-- Allocate a fresh object on the heap, returning its address. -/
def Heap.alloc (h : Heap) (o : HObj) : Addr × Heap :=
  (h.next, ⟨(h.next, o) :: h.objs, h.next + 1⟩)

/-- Overwrite the object stored at an address (in-place mutation of a
container). -/
def Heap.store (h : Heap) (a : Addr) (o : HObj) : Heap :=
  ⟨(a, o) :: h.objs, h.next⟩

/-- Well-formed heap: every bound address is below the fresh-address mark. -/
def Heap.WF (h : Heap) : Prop :=
  ∀ p ∈ h.objs, p.1 < h.next

instance (h : Heap) : Decidable h.WF :=
  decidable_of_iff (∀ p ∈ h.objs, p.1 < h.next) Iff.rfl

/-- Python dict lookup on the entry list. -/
def dictLookup : List (PyVal × PyVal) → PyVal → Option PyVal
  | [], _ => Option.none
  | (k, v) :: es, key => if k = key then some v else dictLookup es key

/-- Python dict assignment d[key] = v: replace in place when the key exists,
otherwise append, preserving insertion order. -/
def dictSet : List (PyVal × PyVal) → PyVal → PyVal → List (PyVal × PyVal)
  | [], key, v => [(key, v)]
  | (k, w) :: es, key, v =>
    if k = key then (k, v) :: es else (k, w) :: dictSet es key v

/-- Python d.pop(key, default) restricted to its effect on the entries:
remove the key when present, otherwise leave the dict unchanged. -/
def dictPop : List (PyVal × PyVal) → PyVal → List (PyVal × PyVal)
  | [], _ => []
  | (k, w) :: es, key =>
    if k = key then es else (k, w) :: dictPop es key

/-- The concrete classes the claims quantify over: a concrete subclass of
GeomdlObject declaring no slots of its own, a concrete subclass of
GeomdlBase declaring no slots of its own, and a concrete subclass of
GeomdlEvaluator. -/
inductive GeomdlClass where
  | objSub
  | baseSub
  | evalSub
deriving DecidableEq, Repr

/-- Slot names declared by GeomdlObject. -/
def objectSlots : List String := ["_name", "_id", "_cfg"]

/-- Slot names declared by GeomdlBase itself. -/
def baseSlots : List String := ["_dimension", "_geom_type", "_opt_data", "_cache"]

/-- The value of the expression self.\_\_slots\_\_ in CPython: attribute
lookup finds the \_\_slots\_\_ tuple of the most derived class that declares
one, NOT the union of all inherited slot names.  GeomdlBase declares its own
tuple of four names; GeomdlEvaluator declares none, so lookup falls through
to the tuple of GeomdlObject. -/
def visibleSlots : GeomdlClass → List String
  | .objSub => objectSlots
  | .baseSub => baseSlots
  | .evalSub => objectSlots

/-- All slot names an instance of the class can have set (the union over the
class hierarchy). -/
def allSlots : GeomdlClass → List String
  | .objSub => objectSlots
  | .baseSub => objectSlots ++ baseSlots
  | .evalSub => objectSlots

/-- The \_\_name\_\_ of the concrete class, used as the default object name. -/
def clsName : GeomdlClass → String
  | .objSub => "ObjSub"
  | .baseSub => "BaseSub"
  | .evalSub => "EvalSub"

/-- A geomdl instance: its concrete class and its set slots.  Created by
cls.\_\_new\_\_(cls) with no slots set; setattr adds or replaces a slot. -/
structure PyInst where
  cls : GeomdlClass
  slots : List (String × PyVal)
deriving DecidableEq, Repr

/-- Slot read on the instance; Option.none means the attribute is unset and
reading it raises AttributeError. -/
def getattrSlot (self : PyInst) (nm : String) : Option PyVal :=
  go self.slots
where
  go : List (String × PyVal) → Option PyVal
    | [] => Option.none
    | (k, v) :: rest => if k = nm then some v else go rest

/-- Slot write on the instance: replace in place when set, otherwise append. -/
def setattrSlot (self : PyInst) (nm : String) (v : PyVal) : PyInst :=
  ⟨self.cls, go self.slots⟩
where
  go : List (String × PyVal) → List (String × PyVal)
    | [] => [(nm, v)]
    | (k, w) :: rest => if k = nm then (k, v) :: rest else (k, w) :: go rest

/-- Python errors the modelled code can raise.  GeomdlError is the library
Signal-Error carrying a message and an optional diagnostic payload; the
others are builtin exceptions. -/
inductive PyErr where
  | geomdlError (msg : String) (data : Option PyVal)
  | attributeError (nm : String)
  | typeErr
  | valueErr
  | keyError
deriving DecidableEq, Repr

/-- Whether an error is the library Signal-Error (GeomdlError). -/
def isGeomdlError : PyErr → Bool
  | .geomdlError _ _ => true
  | _ => false

/-- GeomdlError construction: the stored message is the kind prefix
concatenated with the message given by the caller. -/
def mkGeomdlError (msg : String) (data : Option PyVal) : PyErr :=
  .geomdlError ("GEOMDL ERROR: " ++ msg) data

/-- The builtin int(value) coercion on modelled values: ints pass through,
numeric strings parse (else ValueError), None and containers raise
TypeError. -/
def pyInt (v : PyVal) : Except PyErr Int :=
  match v with
  | .int n => .ok n
  | .str s =>
    match s.toInt? with
    | some n => .ok n
    | Option.none => .error .valueErr
  | .none => .error .typeErr
  | .ref _ => .error .typeErr

/-- Runtime type tags used by the capability registry. -/
inductive TypeTag where
  | noneT
  | intT
  | strT
  | listT
  | dictT
  | danglingT
deriving DecidableEq, Repr

/-- The runtime type of a value (resolving references through the heap). -/
def typeTag (h : Heap) (v : PyVal) : TypeTag :=
  match v with
  | .none => .noneT
  | .int _ => .intT
  | .str _ => .strT
  | .ref a =>
    match h.lookup a with
    | some (.dict _) => .dictT
    | some (.list _) => .listT
    | Option.none => .danglingT

/-- The capability registry: the sets of concrete types registered against
the GeomdlTypeSequence and GeomdlTypeString abstract markers. -/
structure TypeRegistry where
  seqTypes : List TypeTag
  strTypes : List TypeTag
deriving DecidableEq, Repr

/-- isinstance(v, GeomdlTypeSequence) under a registry. -/
def isinstSeq (reg : TypeRegistry) (h : Heap) (v : PyVal) : Bool :=
  reg.seqTypes.contains (typeTag h v)

/-- isinstance(v, GeomdlTypeString) under a registry. -/
def isinstStr (reg : TypeRegistry) (h : Heap) (v : PyVal) : Bool :=
  reg.strTypes.contains (typeTag h v)

/-- Modelled from the spec: the registration of the built-in ordered-sequence
type against GeomdlTypeSequence and the built-in string type against
GeomdlTypeString.  The registration calls are part of the repository but not
of the provided source file (only the two abstract marker classes are);
the spec requires that the built-in list and str types be pre-registered so
the opt validator works out of the box. -/
def defaultRegistry : TypeRegistry :=
  ⟨[TypeTag.listT], [TypeTag.strT]⟩

/-- The builtin len() on modelled values. -/
def pyLen (h : Heap) (v : PyVal) : Except PyErr Nat :=
  match v with
  | .str s => .ok s.length
  | .ref a =>
    match h.lookup a with
    | some (.dict es) => .ok es.length
    | some (.list xs) => .ok xs.length
    | Option.none => .error .typeErr
  | _ => .error .typeErr

/-- Indexing v[i] on modelled values (only list indexing is exercised by the
modelled code paths). -/
def pyIndex (h : Heap) (v : PyVal) (i : Nat) : Except PyErr PyVal :=
  match v with
  | .ref a =>
    match h.lookup a with
    | some (.list xs) =>
      match xs.get? i with
      | some x => .ok x
      | Option.none => .error .keyError
    | some (.dict es) =>
      match dictLookup es (.int (Int.ofNat i)) with
      | some x => .ok x
      | Option.none => .error .keyError
    | Option.none => .error .typeErr
  | _ => .error .typeErr

/-- Keyword arguments accepted by the modelled constructors. -/
structure Kwargs where
  name : Option PyVal
  id : Option PyVal
  configFindSpan : Option PyVal
deriving DecidableEq, Repr

/-- Attribute read through slot storage: an unset slot raises
AttributeError naming the attribute. -/
def attrRead (self : PyInst) (nm : String) : Except PyErr PyVal :=
  match getattrSlot self nm with
  | some v => .ok v
  | Option.none => .error (.attributeError nm)

/-- GeomdlObject.\_\_init\_\_: sets \_name from the name keyword (default the
class name), \_id to int(kwargs.get(id, 0)), and \_cfg to a fresh empty
GeomdlDict. -/
def geomdlObjectInit (h : Heap) (cls : GeomdlClass) (kw : Kwargs) : Except PyErr (PyInst × Heap) :=
  let nameV := kw.name.getD (.str (clsName cls))
  match pyInt (kw.id.getD (.int 0)) with
  | .error e => .error e
  | .ok n =>
    let (cf, h1) := h.alloc (.dict [])
    .ok (⟨cls, [("_name", nameV), ("_id", .int n), ("_cfg", .ref cf)]⟩, h1)

/-- GeomdlBase.\_\_init\_\_: after the GeomdlObject initializer it sets
\_dimension to 0, \_geom_type to the empty string, \_opt_data to a fresh
GeomdlDict, \_cfg again to a fresh GeomdlDict, and \_cache to a fresh
GeomdlDict, in source order. -/
def geomdlBaseInit (h : Heap) (kw : Kwargs) : Except PyErr (PyInst × Heap) :=
  match geomdlObjectInit h .baseSub kw with
  | .error e => .error e
  | .ok (o, h1) =>
    let o1 := setattrSlot o "_dimension" (.int 0)
    let o2 := setattrSlot o1 "_geom_type" (.str "")
    let (oa, h2) := h1.alloc (.dict [])
    let o3 := setattrSlot o2 "_opt_data" (.ref oa)
    let (cf2, h3) := h2.alloc (.dict [])
    let o4 := setattrSlot o3 "_cfg" (.ref cf2)
    let (ca, h4) := h3.alloc (.dict [])
    let o5 := setattrSlot o4 "_cache" (.ref ca)
    .ok (o5, h4)

/-- GeomdlEvaluator.\_\_init\_\_: after the GeomdlObject initializer the
source executes self.cfg[func_find_span] = kwargs.get(config_find_span,
None).  No class in the hierarchy declares an attribute, slot or property
named cfg (the configuration slot is named \_cfg), so the read of self.cfg
resolves to an instance attribute lookup and raises AttributeError.  The
branch taken when a cfg attribute would exist is kept to show what the
assignment would do. -/
def geomdlEvaluatorInit (h : Heap) (kw : Kwargs) : Except PyErr (PyInst × Heap) :=
  match geomdlObjectInit h .evalSub kw with
  | .error e => .error e
  | .ok (self, h1) =>
    match getattrSlot self "cfg" with
    | Option.none => .error (.attributeError "cfg")
    | some (.ref a) =>
      match h1.lookup a with
      | some (.dict es) =>
        .ok (self, h1.store a (.dict (dictSet es (.str "func_find_span") (kw.configFindSpan.getD .none))))
      | _ => .error .typeErr
    | some _ => .error .typeErr

/-- The id property getter: returns self.\_id. -/
def idGet (self : PyInst) : Except PyErr PyVal :=
  attrRead self "_id"

/-- The id property setter: self.\_id = int(value); the builtin coercion
raises its own error when the value is not integer-coercible, in which case
the instance is unchanged. -/
def idSet (self : PyInst) (v : PyVal) : Except PyErr PyInst :=
  match pyInt v with
  | .ok n => .ok (setattrSlot self "_id" (.int n))
  | .error e => .error e

/-- The name property getter: returns self.\_name. -/
def nameGet (self : PyInst) : Except PyErr PyVal :=
  attrRead self "_name"

/-- The dimension property getter: the source returns self.\_dim, while the
slot set by the initializer is named \_dimension. -/
def dimensionGet (self : PyInst) : Except PyErr PyVal :=
  attrRead self "_dim"

/-- The type property getter: returns self.\_geom_type. -/
def typeGet (self : PyInst) : Except PyErr PyVal :=
  attrRead self "_geom_type"

/-- The opt property getter: returns self.\_opt_data. -/
def optGet (self : PyInst) : Except PyErr PyVal :=
  attrRead self "_opt_data"

/-- The opt property setter.  In source order: raise GeomdlError unless the
input is a GeomdlTypeSequence; raise GeomdlError unless its length is 2;
raise GeomdlError unless element 0 is a GeomdlTypeString; then either pop
the key (value None; pop is called with the None value as its default, so a
missing key is a silent no-op) or store the pair in \_opt_data.  The dict is
mutated in place, so the result is the updated heap. -/
def optSet (reg : TypeRegistry) (h : Heap) (self : PyInst) (kv : PyVal) : Except PyErr Heap :=
  if isinstSeq reg h kv = false then
    .error (mkGeomdlError "opt input must be a GeomdlTypeSequence" Option.none)
  else
    match pyLen h kv with
    | .error e => .error e
    | .ok n =>
      if n ≠ 2 then
        .error (mkGeomdlError "opt input must have a size of 2, corresponding to [0:key] => [1:value]" Option.none)
      else
        match pyIndex h kv 0 with
        | .error e => .error e
        | .ok k =>
          if isinstStr reg h k = false then
            .error (mkGeomdlError "key must be GeomdlTypeString" Option.none)
          else
            match pyIndex h kv 1 with
            | .error e => .error e
            | .ok v =>
              match getattrSlot self "_opt_data" with
              | Option.none => .error (.attributeError "_opt_data")
              | some (.ref a) =>
                match h.lookup a with
                | some (.dict es) =>
                  if v = PyVal.none then .ok (h.store a (.dict (dictPop es k)))
                  else .ok (h.store a (.dict (dictSet es k v)))
                | _ => .error .typeErr
              | some _ => .error .typeErr

/-- get_opt: returns \_opt_data[value], catching KeyError and returning None
for a missing key. -/
def get_opt (h : Heap) (self : PyInst) (key : PyVal) : Except PyErr PyVal :=
  match getattrSlot self "_opt_data" with
  | Option.none => .error (.attributeError "_opt_data")
  | some (.ref a) =>
    match h.lookup a with
    | some (.dict es) =>
      match dictLookup es key with
      | some v => .ok v
      | Option.none => .ok PyVal.none
    | _ => .error .typeErr
  | some _ => .error .typeErr

/-- reset: rebinds \_opt_data and \_cache to fresh empty GeomdlDicts and
touches nothing else. -/
def reset (h : Heap) (self : PyInst) : PyInst × Heap :=
  let (oa, h1) := h.alloc (.dict [])
  let self1 := setattrSlot self "_opt_data" (.ref oa)
  let (ca, h2) := h1.alloc (.dict [])
  (setattrSlot self1 "_cache" (.ref ca), h2)

/-- copy.copy on a modelled value: immediates are returned as-is; a mutable
container is duplicated at a fresh address with the same (shared) contents. -/
def pyCopyShallow (h : Heap) (v : PyVal) : PyVal × Heap :=
  match v with
  | .ref a =>
    match h.lookup a with
    | some o => let (b, h1) := h.alloc o; (.ref b, h1)
    | Option.none => (.ref a, h)
  | w => (w, h)

/-- The loop of GeomdlObject.\_\_copy\_\_: for var in self.\_\_slots\_\_,
setattr(result, var, copy.copy(getattr(self, var))). -/
def copySlots (self : PyInst) : List String → Heap → PyInst → Except PyErr (PyInst × Heap)
  | [], h, acc => .ok (acc, h)
  | nm :: rest, h, acc =>
    match getattrSlot self nm with
    | Option.none => .error (.attributeError nm)
    | some v =>
      let (v2, h2) := pyCopyShallow h v
      copySlots self rest h2 (setattrSlot acc nm v2)

/-- GeomdlObject.\_\_copy\_\_: result = cls.\_\_new\_\_(cls) (no slots set),
then shallow-copy the attributes named by self.\_\_slots\_\_, which is the
slot tuple of the most derived class declaring one. -/
def geomdlCopy (h : Heap) (self : PyInst) : Except PyErr (PyInst × Heap) :=
  copySlots self (visibleSlots self.cls) h ⟨self.cls, []⟩

/-- Memo (deduplication table) lookup for deepcopy. -/
def memoFind : List (Addr × PyVal) → Addr → Option PyVal
  | [], _ => Option.none
  | (a, v) :: rest, b => if a = b then some v else memoFind rest b

mutual

/-- copy.deepcopy(v, memo) on modelled values, with fuel.  Immediates are
returned unchanged.  For a container the memo is consulted first; otherwise
an empty copy is allocated, registered in the memo before recursing (so
cyclic and shared references are copied once), the contents are deep-copied
and the copy is filled in. -/
def deepcopyVal : Nat → Heap → List (Addr × PyVal) → PyVal → Option (PyVal × Heap × List (Addr × PyVal))
  | 0, _, _, _ => Option.none
  | Nat.succ f, h, memo, v =>
    match v with
    | .ref a =>
      match memoFind memo a with
      | some w => some (w, h, memo)
      | Option.none =>
        match h.lookup a with
        | some (.dict es) =>
          let (b, h1) := h.alloc (.dict [])
          match deepcopyPairs f h1 ((a, PyVal.ref b) :: memo) es with
          | some (es2, h2, memo2) => some (.ref b, h2.store b (.dict es2), memo2)
          | Option.none => Option.none
        | some (.list xs) =>
          let (b, h1) := h.alloc (.list [])
          match deepcopyElems f h1 ((a, PyVal.ref b) :: memo) xs with
          | some (xs2, h2, memo2) => some (.ref b, h2.store b (.list xs2), memo2)
          | Option.none => Option.none
        | Option.none => Option.none
    | w => some (w, h, memo)

/-- Deep copy of dict entries: keys and values are both deep-copied through
the shared memo. -/
def deepcopyPairs : Nat → Heap → List (Addr × PyVal) → List (PyVal × PyVal) → Option (List (PyVal × PyVal) × Heap × List (Addr × PyVal))
  | 0, _, _, _ => Option.none
  | Nat.succ _, h, memo, [] => some ([], h, memo)
  | Nat.succ f, h, memo, (k, v) :: es =>
    match deepcopyVal f h memo k with
    | some (k2, h1, memo1) =>
      match deepcopyVal f h1 memo1 v with
      | some (v2, h2, memo2) =>
        match deepcopyPairs f h2 memo2 es with
        | some (es2, h3, memo3) => some ((k2, v2) :: es2, h3, memo3)
        | Option.none => Option.none
      | Option.none => Option.none
    | Option.none => Option.none

/-- Deep copy of list elements through the shared memo. -/
def deepcopyElems : Nat → Heap → List (Addr × PyVal) → List PyVal → Option (List PyVal × Heap × List (Addr × PyVal))
  | 0, _, _, _ => Option.none
  | Nat.succ _, h, memo, [] => some ([], h, memo)
  | Nat.succ f, h, memo, x :: xs =>
    match deepcopyVal f h memo x with
    | some (x2, h1, memo1) =>
      match deepcopyElems f h1 memo1 xs with
      | some (xs2, h2, memo2) => some (x2 :: xs2, h2, memo2)
      | Option.none => Option.none
    | Option.none => Option.none

end

/-- The loop of GeomdlObject.\_\_deepcopy\_\_: for var in self.\_\_slots\_\_,
setattr(result, var, copy.deepcopy(getattr(self, var), memo)).  Option.none
is fuel exhaustion (a model artifact, never Python behavior). -/
def deepSlots (fuel : Nat) (self : PyInst) : List String → Heap → List (Addr × PyVal) → PyInst → Option (Except PyErr (PyInst × Heap))
  | [], h, _, acc => some (.ok (acc, h))
  | nm :: rest, h, memo, acc =>
    match getattrSlot self nm with
    | Option.none => some (.error (.attributeError nm))
    | some v =>
      match deepcopyVal fuel h memo v with
      | some (v2, h2, memo2) => deepSlots fuel self rest h2 memo2 (setattrSlot acc nm v2)
      | Option.none => Option.none

/-- GeomdlObject.\_\_deepcopy\_\_: result = cls.\_\_new\_\_(cls); the memo is
pre-seeded with memo[id(self.\_cache)] = self.\_cache.\_\_new\_\_(GeomdlDict),
a freshly constructed empty dict, before any attribute is copied — reading
self.\_cache raises AttributeError on instances whose class hierarchy never
sets a \_cache slot.  The entry memo[id(self)] = result is not modelled: in
this embedding instances are not referenceable from container values, so the
entry can never be consulted.  The slots copied are those named by
self.\_\_slots\_\_ of the most derived class. -/
def geomdlDeepcopy (fuel : Nat) (h : Heap) (self : PyInst) : Option (Except PyErr (PyInst × Heap)) :=
  match getattrSlot self "_cache" with
  | Option.none => some (.error (.attributeError "_cache"))
  | some (.ref ca) =>
    let (cb, h1) := h.alloc (.dict [])
    deepSlots fuel self (visibleSlots self.cls) h1 [(ca, PyVal.ref cb)] ⟨self.cls, []⟩
  | some _ =>
    deepSlots fuel self (visibleSlots self.cls) h [] ⟨self.cls, []⟩

/-- A Geometry Base instance as the initializer shapes it (slot order is the
initialization order; later mutation through the accessors preserves it). -/
def mkBaseInst (nm idv : PyVal) (cf : Addr) (dimv gt : PyVal) (oa ca : Addr) : PyInst :=
  ⟨.baseSub, [("_name", nm), ("_id", idv), ("_cfg", .ref cf),
              ("_dimension", dimv), ("_geom_type", gt),
              ("_opt_data", .ref oa), ("_cache", .ref ca)]⟩

/-- An Identity Object instance that is not a Geometry Base, as the
GeomdlObject initializer shapes it. -/
def mkObjInst (cls : GeomdlClass) (nm idv : PyVal) (cf : Addr) : PyInst :=
  ⟨cls, [("_name", nm), ("_id", idv), ("_cfg", .ref cf)]⟩

/-- Whether a value is an immediate (not a heap reference). -/
def isImmediate : PyVal → Bool
  | .ref _ => false
  | _ => true

/-- Whether every key and value in a dict entry list is immediate. -/
def flatPairs (es : List (PyVal × PyVal)) : Bool :=
  es.all (fun p => isImmediate p.1 && isImmediate p.2)

/-- Popping an absent key is the identity on the entries. -/
theorem dictPop_absent (es : List (PyVal × PyVal)) (k : PyVal)
    (h : dictLookup es k = Option.none) : dictPop es k = es := by
  induction es with
  | nil => rfl
  | cons p rest ih =>
    obtain ⟨a, b⟩ := p
    by_cases hk : a = k
    · simp [dictLookup, hk] at h
    · simp only [dictLookup, if_neg hk] at h
      simp [dictPop, hk, ih h]

/-- After storing a key its lookup returns the new value. -/
theorem dictLookup_dictSet_self (es : List (PyVal × PyVal)) (k v : PyVal) :
    dictLookup (dictSet es k v) k = some v := by
  induction es with
  | nil => simp [dictSet, dictLookup]
  | cons p rest ih =>
    obtain ⟨a, b⟩ := p
    by_cases hk : a = k
    · subst hk
      simp [dictSet, dictLookup]
    · simp [dictSet, dictLookup, hk, ih]

/-- A successful association lookup exhibits a member of the list. -/
theorem assocFind_mem (l : List (Addr × HObj)) (a : Addr) (o : HObj)
    (hl : assocFind l a = some o) : (a, o) ∈ l := by
  induction l with
  | nil => simp [assocFind] at hl
  | cons p rest ih =>
    obtain ⟨b, w⟩ := p
    by_cases hb : b = a
    · subst hb
      have hw : some w = some o := by simpa [assocFind] using hl
      obtain rfl := Option.some.inj hw
      exact List.mem_cons_self _ _
    · simp only [assocFind, if_neg hb] at hl
      exact List.mem_cons_of_mem _ (ih hl)

/-- On a well-formed heap every bound address is below the fresh mark. -/
theorem Heap.lookup_lt_next {h : Heap} (hwf : h.WF) {a : Addr} {o : HObj}
    (hl : h.lookup a = some o) : a < h.next :=
  hwf (a, o) (assocFind_mem h.objs a o hl)

/-- Deep copy of an immediate value is the identity, given any fuel. -/
theorem deepcopyVal_immediate (f : Nat) (h : Heap) (memo : List (Addr × PyVal)) (v : PyVal)
    (hv : isImmediate v = true) (hf : 0 < f) : deepcopyVal f h memo v = some (v, h, memo) := by
  obtain ⟨g, rfl⟩ : ∃ g, f = g + 1 := ⟨f - 1, by omega⟩
  cases v with
  | ref a => simp [isImmediate] at hv
  | none => rfl
  | int n => rfl
  | str s => rfl

/-- Deep copy of a dict whose keys and values are all immediate reproduces
the entries and touches neither heap nor memo, given enough fuel. -/
theorem deepcopyPairs_flat (es : List (PyVal × PyVal)) :
    ∀ (f : Nat) (h : Heap) (memo : List (Addr × PyVal)),
      flatPairs es = true → es.length < f →
      deepcopyPairs f h memo es = some (es, h, memo) := by
  induction es with
  | nil =>
    intro f h memo _ hf
    simp only [List.length_nil] at hf
    obtain ⟨g, rfl⟩ : ∃ g, f = g + 1 := ⟨f - 1, by omega⟩
    rfl
  | cons p rest ih =>
    intro f h memo hflat hf
    obtain ⟨a, b⟩ := p
    simp only [List.length_cons] at hf
    obtain ⟨g, rfl⟩ : ∃ g, f = g + 1 := ⟨f - 1, by omega⟩
    simp only [flatPairs, List.all_cons, Bool.and_eq_true] at hflat
    have hg : rest.length < g := by omega
    have h1 := deepcopyVal_immediate g h memo a hflat.1.1 (by omega)
    have h2 := deepcopyVal_immediate g h memo b hflat.1.2 (by omega)
    have h3 := ih g h memo (by simpa [flatPairs] using hflat.2) hg
    simp only [deepcopyPairs, h1, h2, h3]

/-- Claim C3: for every Geometry Base instance, reading the dimension
property does NOT return the stored spatial dimension: the source getter
returns self.\_dim while the slot written by the initializer is
\_dimension, so the read raises AttributeError.  The claim that the getter
returns the stored integer and does not fail contradicts the getter
docstring, which promises the spatial dimension: the code is a slip. -/
theorem dimensionGet_raises (nm idv : PyVal) (cf : Addr) (dimv gt : PyVal) (oa ca : Addr) :
    dimensionGet (mkBaseInst nm idv cf dimv gt oa ca) = .error (.attributeError "_dim") := rfl

/-- Claim C6: constructing any Evaluator fails: after the identity-layer
initializer the source writes to self.cfg, but the configuration slot is
named \_cfg and no class defines an attribute or property named cfg, so the
construction raises AttributeError instead of succeeding and storing the
span-finding function under func_find_span. -/
theorem evaluatorInit_raises (h : Heap) (nmArg fnArg : Option PyVal) :
    geomdlEvaluatorInit h ⟨nmArg, Option.none, fnArg⟩ = .error (.attributeError "cfg") := rfl

/-- Claim C10: deep copy of an Identity Object that is not a Geometry Base
(a direct concrete subclass of the base object class, or an Evaluator)
raises AttributeError, because the shared deep-copy routine pre-seeds the
deduplication table from self.\_cache before copying any attribute, and only
Geometry Base sets a \_cache slot. -/
theorem deepcopy_non_base_raises (fuel : Nat) (h : Heap) (nm idv : PyVal) (cf : Addr) :
    geomdlDeepcopy fuel h (mkObjInst .objSub nm idv cf) = some (.error (.attributeError "_cache"))
    ∧ geomdlDeepcopy fuel h (mkObjInst .evalSub nm idv cf) = some (.error (.attributeError "_cache")) :=
  ⟨rfl, rfl⟩

/-- Claim C8: reset rebinds the opt store and the cache of a Geometry Base
instance to fresh empty maps and leaves the \_id, \_name, \_dimension and
\_geom_type attributes unchanged. -/
theorem reset_clears_and_preserves (h : Heap) (nm idv : PyVal) (cf : Addr) (dimv gt : PyVal) (oa ca : Addr) :
    getattrSlot (reset h (mkBaseInst nm idv cf dimv gt oa ca)).1 "_opt_data" = some (.ref h.next)
    ∧ (reset h (mkBaseInst nm idv cf dimv gt oa ca)).2.lookup h.next = some (.dict [])
    ∧ getattrSlot (reset h (mkBaseInst nm idv cf dimv gt oa ca)).1 "_cache" = some (.ref (h.next + 1))
    ∧ (reset h (mkBaseInst nm idv cf dimv gt oa ca)).2.lookup (h.next + 1) = some (.dict [])
    ∧ getattrSlot (reset h (mkBaseInst nm idv cf dimv gt oa ca)).1 "_name" = some nm
    ∧ getattrSlot (reset h (mkBaseInst nm idv cf dimv gt oa ca)).1 "_id" = some idv
    ∧ getattrSlot (reset h (mkBaseInst nm idv cf dimv gt oa ca)).1 "_dimension" = some dimv
    ∧ getattrSlot (reset h (mkBaseInst nm idv cf dimv gt oa ca)).1 "_geom_type" = some gt := by
  have hne : h.next + 1 ≠ h.next := Nat.succ_ne_self h.next
  refine ⟨rfl, ?_, rfl, ?_, rfl, rfl, rfl, rfl⟩
  · simp [reset, Heap.alloc, Heap.lookup, assocFind, hne]
  · simp [reset, Heap.alloc, Heap.lookup, assocFind]

/-- Reading the opt-store slot of a Geometry Base shaped instance. -/
theorem mkBaseInst_opt_data (nm idv : PyVal) (cf : Addr) (dimv gt : PyVal) (oa ca : Addr) :
    getattrSlot (mkBaseInst nm idv cf dimv gt oa ca) "_opt_data" = some (.ref oa) := rfl

/-- Reading the cache slot of a Geometry Base shaped instance. -/
theorem mkBaseInst_cache (nm idv : PyVal) (cf : Addr) (dimv gt : PyVal) (oa ca : Addr) :
    getattrSlot (mkBaseInst nm idv cf dimv gt oa ca) "_cache" = some (.ref ca) := rfl

/-- Claim C4: the opt setter validates its input in source order, raising
the library Signal-Error at the first failing check: not sequence-like
gives the structure error about GeomdlTypeSequence; wrong length gives the
structure error about size 2; a key that is not string-like gives the type
error about GeomdlTypeString; and when all checks pass with a non-None
value the pair is stored, overwriting any prior value for the key. -/
theorem optSet_validation (reg : TypeRegistry) (h : Heap) (nm idv : PyVal) (cf : Addr)
    (dimv gt : PyVal) (oa ca : Addr) (oes : List (PyVal × PyVal))
    (hoa : h.lookup oa = some (.dict oes)) :
    (∀ kv : PyVal, isinstSeq reg h kv = false →
      optSet reg h (mkBaseInst nm idv cf dimv gt oa ca) kv
        = .error (mkGeomdlError "opt input must be a GeomdlTypeSequence" Option.none))
    ∧ (∀ (a : Addr) (xs : List PyVal), isinstSeq reg h (.ref a) = true →
        h.lookup a = some (.list xs) → xs.length ≠ 2 →
        optSet reg h (mkBaseInst nm idv cf dimv gt oa ca) (.ref a)
          = .error (mkGeomdlError "opt input must have a size of 2, corresponding to [0:key] => [1:value]" Option.none))
    ∧ (∀ (a : Addr) (k v : PyVal), isinstSeq reg h (.ref a) = true →
        h.lookup a = some (.list [k, v]) → isinstStr reg h k = false →
        optSet reg h (mkBaseInst nm idv cf dimv gt oa ca) (.ref a)
          = .error (mkGeomdlError "key must be GeomdlTypeString" Option.none))
    ∧ (∀ (a : Addr) (k v : PyVal), isinstSeq reg h (.ref a) = true →
        h.lookup a = some (.list [k, v]) → isinstStr reg h k = true → v ≠ PyVal.none →
        optSet reg h (mkBaseInst nm idv cf dimv gt oa ca) (.ref a)
          = .ok (h.store oa (.dict (dictSet oes k v)))
        ∧ dictLookup (dictSet oes k v) k = some v) := by
  refine ⟨?_, ?_, ?_, ?_⟩
  · intro kv hseq
    simp [optSet, hseq]
  · intro a xs hseq hls hlen
    simp [optSet, hseq, pyLen, hls, hlen]
  · intro a k v hseq hls hstr
    simp [optSet, hseq, pyLen, hls, pyIndex, hstr]
  · intro a k v hseq hls hstr hv
    refine ⟨?_, dictLookup_dictSet_self oes k v⟩
    simp [optSet, hseq, pyLen, hls, pyIndex, hstr, hv, mkBaseInst_opt_data, hoa]

/-- Concrete heap for the opt validation witness: an empty opt dict at 0, a
wrong-arity list at 2, a non-string-key pair at 4, and a good pair at 3. -/
def w4h : Heap :=
  ⟨[(0, .dict []), (1, .list [.int 1, .int 2]),
    (2, .list [.str "k", .int 1, .int 2]),
    (3, .list [.str "k", .int 7]),
    (4, .list [.int 9, .int 8])], 5⟩

/-- Concrete Geometry Base instance for the opt validation witness. -/
def w4i : PyInst := mkBaseInst (.str "X") (.int 0) 9 (.int 0) (.str "") 0 17

/-- Witness for claim C4: each branch of the validation theorem realized on
concrete inputs under the default registrations. -/
theorem optSet_validation_witness :
    optSet defaultRegistry w4h w4i (.int 7)
      = .error (mkGeomdlError "opt input must be a GeomdlTypeSequence" Option.none)
    ∧ optSet defaultRegistry w4h w4i (.ref 2)
      = .error (mkGeomdlError "opt input must have a size of 2, corresponding to [0:key] => [1:value]" Option.none)
    ∧ optSet defaultRegistry w4h w4i (.ref 4)
      = .error (mkGeomdlError "key must be GeomdlTypeString" Option.none)
    ∧ optSet defaultRegistry w4h w4i (.ref 3)
      = .ok (w4h.store 0 (.dict (dictSet [] (.str "k") (.int 7)))) := by
  have H := optSet_validation defaultRegistry w4h (.str "X") (.int 0) 9 (.int 0) (.str "") 0 17 [] rfl
  exact ⟨H.1 (.int 7) rfl,
         H.2.1 2 [.str "k", .int 1, .int 2] rfl rfl (by decide),
         H.2.2.1 4 (.int 9) (.int 8) rfl rfl rfl,
         (H.2.2.2 3 (.str "k") (.int 7) rfl rfl rfl (by decide)).1⟩

/-- Claim C5: with the built-in ordered-sequence type registered against
GeomdlTypeSequence and the built-in string type against GeomdlTypeString
(the default registrations modelled from the spec), an opt assignment whose
input is a built-in list pair with a built-in string key passes both
capability checks without any host registration and stores the pair. -/
theorem optSet_defaults_accept (h : Heap) (nm idv : PyVal) (cf : Addr)
    (dimv gt : PyVal) (oa ca : Addr) (oes : List (PyVal × PyVal)) (a : Addr) (s : String) (v : PyVal)
    (hoa : h.lookup oa = some (.dict oes))
    (hls : h.lookup a = some (.list [.str s, v]))
    (hv : v ≠ PyVal.none) :
    isinstSeq defaultRegistry h (.ref a) = true
    ∧ isinstStr defaultRegistry h (.str s) = true
    ∧ optSet defaultRegistry h (mkBaseInst nm idv cf dimv gt oa ca) (.ref a)
        = .ok (h.store oa (.dict (dictSet oes (.str s) v))) := by
  have hseq : isinstSeq defaultRegistry h (.ref a) = true := by
    simp [isinstSeq, typeTag, hls, defaultRegistry]
  have hstr : isinstStr defaultRegistry h (.str s) = true := by
    simp [isinstStr, typeTag, defaultRegistry]
  refine ⟨hseq, hstr, ?_⟩
  simp [optSet, hseq, pyLen, hls, pyIndex, hstr, hv, mkBaseInst_opt_data, hoa]

/-- Concrete heap for the default-registration witness: an empty opt dict at
0 and the two list pairs of the spec example at 1 and 2. -/
def w5h : Heap :=
  ⟨[(0, .dict []), (1, .list [.str "k", .int 1]), (2, .list [.str "k", .int 2])], 3⟩

/-- Concrete Geometry Base instance for the default-registration witness. -/
def w5i : PyInst := mkBaseInst (.str "X") (.int 0) 9 (.int 0) (.str "") 0 9

/-- Witness for claim C5: the spec example, setting k to 1 then overwriting
with 2 and reading 2 back, both assignments passing the default capability
checks. -/
theorem optSet_defaults_accept_witness :
    optSet defaultRegistry w5h w5i (.ref 1) = .ok (w5h.store 0 (.dict [(.str "k", .int 1)]))
    ∧ optSet defaultRegistry (w5h.store 0 (.dict [(.str "k", .int 1)])) w5i (.ref 2)
        = .ok ((w5h.store 0 (.dict [(.str "k", .int 1)])).store 0 (.dict [(.str "k", .int 2)]))
    ∧ get_opt ((w5h.store 0 (.dict [(.str "k", .int 1)])).store 0 (.dict [(.str "k", .int 2)])) w5i (.str "k")
        = .ok (.int 2) := by
  refine ⟨(optSet_defaults_accept w5h (.str "X") (.int 0) 9 (.int 0) (.str "") 0 9 [] 1 "k" (.int 1) rfl rfl (by decide)).2.2,
          (optSet_defaults_accept (w5h.store 0 (.dict [(.str "k", .int 1)])) (.str "X") (.int 0) 9 (.int 0) (.str "") 0 9
            [(.str "k", .int 1)] 2 "k" (.int 2) rfl rfl (by decide)).2.2,
          rfl⟩

/-- Claim C7: assigning [k, None] through the opt setter when k is absent
raises no error and leaves the store unchanged (removal goes through pop
with a default), and get_opt on an absent key returns None instead of
raising. -/
theorem opt_absent_noop (h : Heap) (nm idv : PyVal) (cf : Addr) (dimv gt : PyVal)
    (oa ca : Addr) (oes : List (PyVal × PyVal)) (a : Addr) (s : String)
    (hoa : h.lookup oa = some (.dict oes))
    (hls : h.lookup a = some (.list [.str s, PyVal.none]))
    (habs : dictLookup oes (.str s) = Option.none) :
    optSet defaultRegistry h (mkBaseInst nm idv cf dimv gt oa ca) (.ref a)
      = .ok (h.store oa (.dict oes))
    ∧ get_opt h (mkBaseInst nm idv cf dimv gt oa ca) (.str s) = .ok PyVal.none := by
  constructor
  · have hseq : isinstSeq defaultRegistry h (.ref a) = true := by
      simp [isinstSeq, typeTag, hls, defaultRegistry]
    have hstr : isinstStr defaultRegistry h (.str s) = true := by
      simp [isinstStr, typeTag, defaultRegistry]
    simp [optSet, hseq, pyLen, hls, pyIndex, hstr, mkBaseInst_opt_data, hoa,
          dictPop_absent oes (.str s) habs]
  · simp [get_opt, mkBaseInst_opt_data, hoa, habs]

/-- Concrete heap for the absent-key witness: the opt dict at 0 holds only
the key other, and the pair [k, None] sits at 1. -/
def w7h : Heap :=
  ⟨[(0, .dict [(.str "other", .int 1)]), (1, .list [.str "k", PyVal.none])], 2⟩

/-- Concrete Geometry Base instance for the absent-key witness. -/
def w7i : PyInst := mkBaseInst (.str "X") (.int 0) 9 (.int 0) (.str "") 0 9

/-- Witness for claim C7: deleting the absent key k is a silent no-op and
get_opt of k returns None. -/
theorem opt_absent_noop_witness :
    optSet defaultRegistry w7h w7i (.ref 1) = .ok (w7h.store 0 (.dict [(.str "other", .int 1)]))
    ∧ get_opt w7h w7i (.str "k") = .ok PyVal.none :=
  opt_absent_noop w7h (.str "X") (.int 0) 9 (.int 0) (.str "") 0 9
    [(.str "other", .int 1)] 1 "k" rfl rfl (by decide)

/-- Claim C9 counterexample: assigning None (not integer-coercible) to the
id of a concrete instance raises the builtin TypeError of the int coercion,
which is not the library Signal-Error and carries no diagnostic payload, so
the claim that the failure is surfaced as a Signal-Error is false. -/
theorem idSet_not_signal_error_cex :
    idSet (mkBaseInst (.str "X") (.int 5) 2 (.int 0) (.str "") 0 1) PyVal.none
      = .error PyErr.typeErr
    ∧ isGeomdlError PyErr.typeErr = false :=
  ⟨rfl, rfl⟩

/-- Claim C9 (amended): assigning a non-integer-coercible value to id fails
with the builtin coercion error (TypeError or ValueError), which is not the
library Signal-Error and carries no payload, and no updated instance is
produced, so id is unchanged. -/
theorem idSet_coercion_error (self : PyInst) (v : PyVal) (e : PyErr)
    (hb : pyInt v = .error e) :
    idSet self v = .error e ∧ isGeomdlError e = false := by
  constructor
  · simp [idSet, hb]
  · cases v with
    | int n => simp [pyInt] at hb
    | none =>
      simp only [pyInt, Except.error.injEq] at hb
      subst hb
      rfl
    | ref a =>
      simp only [pyInt, Except.error.injEq] at hb
      subst hb
      rfl
    | str s =>
      simp only [pyInt] at hb
      cases hs : s.toInt? with
      | some n => rw [hs] at hb; simp at hb
      | none =>
        rw [hs] at hb
        simp only [Except.error.injEq] at hb
        subst hb
        rfl

/-- Witness for the amended claim C9: a container value is not
integer-coercible and its assignment to id raises the builtin TypeError. -/
theorem idSet_coercion_error_witness :
    idSet (mkObjInst .objSub (.str "A") (.int 1) 0) (.ref 3) = .error PyErr.typeErr
    ∧ isGeomdlError PyErr.typeErr = false :=
  idSet_coercion_error (mkObjInst .objSub (.str "A") (.int 1) 0) (.ref 3) PyErr.typeErr rfl

/-- Concrete heap for the copy counterexamples: the opt dict of the instance
at 0 (non-empty), its cache at 1 (non-empty), its configuration at 2. -/
def cexH : Heap :=
  ⟨[(0, .dict [(.str "k", .int 1)]), (1, .dict [(.str "c", .int 2)]), (2, .dict [])], 3⟩

/-- Concrete Geometry Base instance for the copy counterexamples, with name
X, id 5, non-empty opt store and non-empty cache. -/
def cexI : PyInst := mkBaseInst (.str "X") (.int 5) 2 (.int 0) (.str "") 0 1

/-- The name slot of the instance produced by a copy, when the copy
succeeded. -/
def copyNameSlot : Except PyErr (PyInst × Heap) → Option (Option PyVal)
  | .ok (i, _) => some (getattrSlot i "_name")
  | .error _ => Option.none

/-- The name slot of the instance produced by a deep copy, when the deep
copy succeeded. -/
def deepNameSlot : Option (Except PyErr (PyInst × Heap)) → Option (Option PyVal)
  | some r => copyNameSlot r
  | Option.none => Option.none

/-- Claim C1 counterexample: deep copy of a concrete Geometry Base instance
with a non-empty cache succeeds, but the copy has no name attribute at all
(the copy loop iterates the slot tuple of the most derived class, which
omits the inherited name, id and configuration slots), refuting the claim
that all attributes other than the cache are deep-copied into the copy. -/
theorem deepcopy_drops_inherited_cex :
    deepNameSlot (geomdlDeepcopy 10 cexH cexI) = some Option.none
    ∧ getattrSlot cexI "_name" = some (.str "X")
    ∧ cexH.lookup 1 = some (.dict [(.str "c", .int 2)]) := by decide

/-- Claim C2 counterexample: shallow copy of a concrete Geometry Base
instance (an Identity Object by inheritance) succeeds but the copy has no
name attribute, refuting the claim that every attribute declared by the
type, inherited ones included, is shallow-copied into the new instance. -/
theorem copy_drops_inherited_cex :
    copyNameSlot (geomdlCopy cexH cexI) = some Option.none
    ∧ getattrSlot cexI "_name" = some (.str "X") := by decide

/-- Claim C2 (amended): shallow copy produces a new instance of the same
concrete type without invoking a constructor, shallow-copying exactly the
attributes named by the slot tuple of the most derived class: for a direct
concrete subclass of the base object class these are name, id and
configuration (the configuration map is duplicated at a fresh address with
the same contents); for a Geometry Base subclass only the four geometry
slots are copied, and the inherited name, id and configuration attributes
are left unset in the copy. -/
theorem copy_visible_slots (h : Heap) (nms : String) (ids : Int) (cf : Addr)
    (cfes : List (PyVal × PyVal)) (dims : Int) (gts : String) (oa ca : Addr)
    (oes ces : List (PyVal × PyVal))
    (hwf : h.WF)
    (hcf : h.lookup cf = some (.dict cfes))
    (hoa : h.lookup oa = some (.dict oes))
    (hca : h.lookup ca = some (.dict ces)) :
    (∃ h2 cf2, geomdlCopy h (mkObjInst .objSub (.str nms) (.int ids) cf)
        = .ok (⟨.objSub, [("_name", .str nms), ("_id", .int ids), ("_cfg", .ref cf2)]⟩, h2)
      ∧ cf2 ≠ cf ∧ h2.lookup cf2 = some (.dict cfes))
    ∧ (∃ h2 oa2 ca2, geomdlCopy h (mkBaseInst (.str nms) (.int ids) cf (.int dims) (.str gts) oa ca)
        = .ok (⟨.baseSub, [("_dimension", .int dims), ("_geom_type", .str gts),
                           ("_opt_data", .ref oa2), ("_cache", .ref ca2)]⟩, h2)
      ∧ oa2 ≠ oa ∧ ca2 ≠ ca
      ∧ h2.lookup oa2 = some (.dict oes) ∧ h2.lookup ca2 = some (.dict ces)) := by
  have hcf' : assocFind h.objs cf = some (.dict cfes) := hcf
  have hoa' : assocFind h.objs oa = some (.dict oes) := hoa
  have hca' : assocFind h.objs ca = some (.dict ces) := hca
  have hltcf : cf < h.next := Heap.lookup_lt_next hwf hcf
  have hltoa : oa < h.next := Heap.lookup_lt_next hwf hoa
  have hltca : ca < h.next := Heap.lookup_lt_next hwf hca
  constructor
  · refine ⟨⟨(h.next, .dict cfes) :: h.objs, h.next + 1⟩, h.next, ?_, hltcf.ne', ?_⟩
    · simp [geomdlCopy, visibleSlots, objectSlots, copySlots, mkObjInst,
            getattrSlot, getattrSlot.go, setattrSlot, setattrSlot.go,
            pyCopyShallow, Heap.lookup, hcf', Heap.alloc]
    · simp [Heap.lookup, assocFind]
  · refine ⟨⟨(h.next + 1, .dict ces) :: (h.next, .dict oes) :: h.objs, h.next + 2⟩,
            h.next, h.next + 1, ?_, hltoa.ne', ?_, ?_, ?_⟩
    · simp [geomdlCopy, visibleSlots, baseSlots, copySlots, mkBaseInst,
            getattrSlot, getattrSlot.go, setattrSlot, setattrSlot.go,
            pyCopyShallow, Heap.lookup, hoa', hca', Heap.alloc, assocFind, hltca.ne']
    · exact (Nat.lt_succ_of_lt hltca).ne'
    · simp [Heap.lookup, assocFind, Nat.succ_ne_self]
    · simp [Heap.lookup, assocFind]

/-- Witness for the amended claim C2 on the concrete counterexample data:
the shallow copy of the object-level instance carries all three slots with a
fresh configuration map, and the shallow copy of the base-level instance
carries exactly the four geometry slots with fresh containers. -/
theorem copy_visible_slots_witness :
    (∃ h2 cf2, geomdlCopy cexH (mkObjInst .objSub (.str "X") (.int 5) 2)
        = .ok (⟨.objSub, [("_name", .str "X"), ("_id", .int 5), ("_cfg", .ref cf2)]⟩, h2)
      ∧ cf2 ≠ 2 ∧ h2.lookup cf2 = some (.dict []))
    ∧ (∃ h2 oa2 ca2, geomdlCopy cexH (mkBaseInst (.str "X") (.int 5) 2 (.int 0) (.str "") 0 1)
        = .ok (⟨.baseSub, [("_dimension", .int 0), ("_geom_type", .str ""),
                           ("_opt_data", .ref oa2), ("_cache", .ref ca2)]⟩, h2)
      ∧ oa2 ≠ 0 ∧ ca2 ≠ 1
      ∧ h2.lookup oa2 = some (.dict [(.str "k", .int 1)])
      ∧ h2.lookup ca2 = some (.dict [(.str "c", .int 2)])) :=
  copy_visible_slots cexH "X" 5 2 [] 0 "" 0 1 [(.str "k", .int 1)] [(.str "c", .int 2)]
    (by decide) rfl rfl rfl

/-- Claim C1 (amended): deep copy of a Geometry Base instance yields a copy
whose cache is a freshly constructed empty map (never the deep copy of the
original cache, which may be non-empty) and whose dimension, geometry type
and opt store are deep-copied (the opt store reappearing with equal content
at a fresh address); but only the four slots of the most derived class are
copied, and the inherited name, id and configuration attributes are left
unset in the copy. -/
theorem deepcopy_cache_reset (h : Heap) (fuel : Nat) (nm idv : PyVal) (cf : Addr)
    (dims : Int) (gts : String) (oa ca : Addr) (oes ces : List (PyVal × PyVal))
    (hwf : h.WF)
    (hoa : h.lookup oa = some (.dict oes))
    (hca : h.lookup ca = some (.dict ces))
    (hne : oa ≠ ca)
    (hflat : flatPairs oes = true)
    (hfuel : oes.length + 2 ≤ fuel) :
    ∃ h2, geomdlDeepcopy fuel h (mkBaseInst nm idv cf (.int dims) (.str gts) oa ca)
        = some (.ok (⟨.baseSub, [("_dimension", .int dims), ("_geom_type", .str gts),
                                 ("_opt_data", .ref (h.next + 1)), ("_cache", .ref h.next)]⟩, h2))
      ∧ h.next + 1 ≠ oa ∧ h2.lookup (h.next + 1) = some (.dict oes)
      ∧ h.next ≠ ca ∧ h2.lookup h.next = some (.dict [])
      ∧ getattrSlot (⟨.baseSub, [("_dimension", .int dims), ("_geom_type", .str gts),
                                 ("_opt_data", .ref (h.next + 1)), ("_cache", .ref h.next)]⟩ : PyInst) "_name"
          = Option.none := by
  obtain ⟨g, rfl⟩ : ∃ g, fuel = g + 1 := ⟨fuel - 1, by omega⟩
  have hg : oes.length < g := by omega
  have hoa' : assocFind h.objs oa = some (.dict oes) := hoa
  have hltoa : oa < h.next := Heap.lookup_lt_next hwf hoa
  have hltca : ca < h.next := Heap.lookup_lt_next hwf hca
  have hne1 : ca ≠ oa := Ne.symm hne
  have hpairs := deepcopyPairs_flat oes g
    ⟨(h.next + 1, .dict []) :: (h.next, .dict []) :: h.objs, h.next + 1 + 1⟩
    [(oa, PyVal.ref (h.next + 1)), (ca, PyVal.ref h.next)] hflat hg
  refine ⟨⟨(h.next + 1, .dict oes) :: (h.next + 1, .dict []) :: (h.next, .dict []) :: h.objs,
           h.next + 1 + 1⟩, ?_, (Nat.lt_succ_of_lt hltoa).ne', ?_, hltca.ne', ?_, rfl⟩
  · simp [geomdlDeepcopy, mkBaseInst, getattrSlot, getattrSlot.go, Heap.alloc,
          visibleSlots, baseSlots, deepSlots, deepcopyVal, memoFind, hne, hne1,
          Heap.lookup, assocFind, hltoa.ne', hoa', hpairs, Heap.store,
          setattrSlot, setattrSlot.go]
  · simp [Heap.lookup, assocFind]
  · simp [Heap.lookup, assocFind, Nat.succ_ne_self]

/-- Witness for the amended claim C1 on the concrete counterexample data:
the deep copy receives a fresh empty cache even though the original cache
holds an entry, the opt store is reproduced at a fresh address, and the name
slot of the copy is unset. -/
theorem deepcopy_cache_reset_witness :
    ∃ h2, geomdlDeepcopy 10 cexH (mkBaseInst (.str "X") (.int 5) 2 (.int 0) (.str "") 0 1)
        = some (.ok (⟨.baseSub, [("_dimension", .int 0), ("_geom_type", .str ""),
                                 ("_opt_data", .ref (cexH.next + 1)), ("_cache", .ref cexH.next)]⟩, h2))
      ∧ cexH.next + 1 ≠ 0 ∧ h2.lookup (cexH.next + 1) = some (.dict [(.str "k", .int 1)])
      ∧ cexH.next ≠ 1 ∧ h2.lookup cexH.next = some (.dict [])
      ∧ getattrSlot (⟨.baseSub, [("_dimension", .int 0), ("_geom_type", .str ""),
                                 ("_opt_data", .ref (cexH.next + 1)), ("_cache", .ref cexH.next)]⟩ : PyInst) "_name"
          = Option.none :=
  deepcopy_cache_reset cexH 10 (.str "X") (.int 5) 2 0 "" 0 1
    [(.str "k", .int 1)] [(.str "c", .int 2)]
    (by decide) rfl rfl (by decide) (by decide) (by decide)

end Geomdl
